import Mathlib

/-!
Shallow embedding of the guardrail threshold feedback-loop tuner
(`guardrail_tuner/types.py`, `guardrail_tuner/threshold_adjuster.py`,
`guardrail_tuner/feedback_loop.py`).

Python floats are modelled as rationals; Python `round(x, 3)` is modelled
as rounding `1000 * x` to the nearest integer (half up; all concrete
inputs used below avoid exact ties, where the binary-float behaviour of
Python could differ). Mutation of `TuningState` objects is modelled by
explicit state passing, and the adjuster's `states` dict by a partial map
from the string key `stage ++ ":" ++ name`.
-/

namespace GuardrailTuner

/-- The `TuningDirection` enum from `types.py`. -/
inductive TuningDirection where
  | increase
  | decrease
  | stable
deriving DecidableEq

/-- The `TuningTarget` dataclass from `types.py`, with its default values. -/
structure TuningTarget where
  precision_target : ℚ := 9/10
  recall_target : ℚ := 9/10
  priority : String := "f1"
  tolerance : ℚ := 1/50
deriving DecidableEq

/-- The `GuardrailMetrics` dataclass from `types.py`. -/
structure GuardrailMetrics where
  precision : ℚ
  «recall» : ℚ
  f1_score : ℚ
  true_positives : ℕ
  false_positives : ℕ
  false_negatives : ℕ
  true_negatives : ℕ
  total_samples : ℕ
deriving DecidableEq

/-- The `ThresholdAdjustment` dataclass from `types.py`. -/
structure ThresholdAdjustment where
  guardrail_name : String
  stage : String
  old_threshold : ℚ
  new_threshold : ℚ
  direction : TuningDirection
  reason : String
  iteration : ℕ
deriving DecidableEq

/-- The `TuningState` dataclass from `types.py`, with its default values. -/
structure TuningState where
  guardrail_name : String
  stage : String
  current_threshold : ℚ
  initial_threshold : ℚ
  threshold_history : List ℚ := []
  metrics_history : List GuardrailMetrics := []
  adjustments : List ThresholdAdjustment := []
  oscillation_count : ℕ := 0
  last_direction : Option TuningDirection := none
  converged : Bool := false
  stop_reason : Option String := none
deriving DecidableEq

/-- The `FeedbackLoopConfig` dataclass from `types.py`, with its default values. -/
structure FeedbackLoopConfig where
  max_iterations : ℕ := 10
  step_size : ℚ := 1/20
  min_step_size : ℚ := 1/100
  min_threshold : ℚ := 1/10
  max_threshold : ℚ := 19/20
  oscillation_limit : ℕ := 3
  targets : TuningTarget := {}
deriving DecidableEq

/-- Result of `MetricsAnalyzer.calculate_gaps` (a Python dict with fixed keys). -/
structure GapAnalysis where
  precision_gap : ℚ
  recall_gap : ℚ
  precision_achieved : Bool
  recall_achieved : Bool
deriving DecidableEq

/-- Method `MetricsAnalyzer.calculate_gaps` from `threshold_adjuster.py`. -/
def calculate_gaps (targets : TuningTarget) (metrics : GuardrailMetrics) : GapAnalysis :=
  { precision_gap := targets.precision_target - metrics.precision
    recall_gap := targets.recall_target - metrics.recall
    precision_achieved :=
      decide (metrics.precision ≥ targets.precision_target - targets.tolerance)
    recall_achieved :=
      decide (metrics.recall ≥ targets.recall_target - targets.tolerance) }

/-- Method `MetricsAnalyzer.determine_direction` from `threshold_adjuster.py`. -/
def determine_direction (targets : TuningTarget) (metrics : GuardrailMetrics) :
    TuningDirection :=
  let gaps := calculate_gaps targets metrics
  if gaps.precision_achieved && gaps.recall_achieved then
    TuningDirection.stable
  else if gaps.precision_gap > targets.tolerance ∧ gaps.recall_gap ≤ targets.tolerance then
    TuningDirection.increase
  else if gaps.recall_gap > targets.tolerance ∧ gaps.precision_gap ≤ targets.tolerance then
    TuningDirection.decrease
  else if targets.priority = "precision" then
    TuningDirection.increase
  else if targets.priority = "recall" then
    TuningDirection.decrease
  else if gaps.precision_gap > gaps.recall_gap then
    TuningDirection.increase
  else
    TuningDirection.decrease

/-- Python `round(q, 3)`: round to the nearest thousandth. -/
def round3 (q : ℚ) : ℚ := ((round (1000 * q) : ℤ) : ℚ) / 1000

/-- Left-pad a natural number below 1000 to three digits. -/
def pad3 (n : ℕ) : String :=
  if n < 10 then "00" ++ toString n
  else if n < 100 then "0" ++ toString n
  else toString n

/-- Python format `f"{q:.3f}"` for a nonnegative rational. -/
def fmt3 (q : ℚ) : String :=
  let n := (round (1000 * q)).toNat
  toString (n / 1000) ++ "." ++ pad3 (n % 1000)

/-- The stop reason `f"Oscillation limit reached ({limit})"`. -/
def oscillationReason (config : FeedbackLoopConfig) : String :=
  "Oscillation limit reached (" ++ toString config.oscillation_limit ++ ")"

/-- Step-size computation from `ThresholdAdjuster.calculate_adjustment`
(lines 140-146): the halving clamp is applied only when
`oscillation_count > 0`. -/
def effectiveStep (config : FeedbackLoopConfig) (oscillation_count : ℕ) : ℚ :=
  if 0 < oscillation_count then
    max config.min_step_size (config.step_size / 2 ^ oscillation_count)
  else
    config.step_size

/-- Tail of `ThresholdAdjuster.calculate_adjustment` (lines 140-196):
step computation, threshold move, rounding, bound-saturation check and
state update. -/
def applyStep (config : FeedbackLoopConfig) (state : TuningState)
    (direction : TuningDirection) (metrics : GuardrailMetrics) (iteration : ℕ) :
    TuningState × Option ThresholdAdjustment :=
  let step := effectiveStep config state.oscillation_count
  let raw_threshold :=
    if direction = TuningDirection.increase then
      min config.max_threshold (state.current_threshold + step)
    else
      max config.min_threshold (state.current_threshold - step)
  let reason :=
    if direction = TuningDirection.increase then
      "Precision below target, increasing threshold by " ++ fmt3 step
    else
      "Recall below target, decreasing threshold by " ++ fmt3 step
  let new_threshold := round3 raw_threshold
  if new_threshold = state.current_threshold then
    ({ state with converged := true, stop_reason := some "Threshold at bounds limit" },
     some { guardrail_name := state.guardrail_name
            stage := state.stage
            old_threshold := state.current_threshold
            new_threshold := new_threshold
            direction := TuningDirection.stable
            reason := "Threshold at bounds limit"
            iteration := iteration })
  else
    let adjustment : ThresholdAdjustment :=
      { guardrail_name := state.guardrail_name
        stage := state.stage
        old_threshold := state.current_threshold
        new_threshold := new_threshold
        direction := direction
        reason := reason
        iteration := iteration }
    ({ state with
        threshold_history := state.threshold_history ++ [state.current_threshold]
        metrics_history := state.metrics_history ++ [metrics]
        adjustments := state.adjustments ++ [adjustment]
        current_threshold := new_threshold
        last_direction := some direction },
     some adjustment)

/-- Method `ThresholdAdjuster.calculate_adjustment` from `threshold_adjuster.py`.
Returns the updated state together with the optional adjustment record. -/
def calculate_adjustment (config : FeedbackLoopConfig) (state : TuningState)
    (metrics : GuardrailMetrics) (iteration : ℕ) :
    TuningState × Option ThresholdAdjustment :=
  let direction := determine_direction config.targets metrics
  if direction = TuningDirection.stable then
    ({ state with converged := true, stop_reason := some "Targets achieved" }, none)
  else
    match state.last_direction with
    | some last =>
      if last ≠ direction then
        let bumped := { state with oscillation_count := state.oscillation_count + 1 }
        if config.oscillation_limit ≤ bumped.oscillation_count then
          ({ bumped with
              converged := true
              stop_reason := some (oscillationReason config) },
           some { guardrail_name := state.guardrail_name
                  stage := state.stage
                  old_threshold := state.current_threshold
                  new_threshold := state.current_threshold
                  direction := TuningDirection.stable
                  reason := oscillationReason config
                  iteration := iteration })
        else
          applyStep config bumped direction metrics iteration
      else
        applyStep config state direction metrics iteration
    | none => applyStep config state direction metrics iteration

/-- Method `ThresholdAdjuster._state_key`. -/
def stateKey (stage guardrail_name : String) : String :=
  stage ++ ":" ++ guardrail_name

/-- The adjuster's `states` dict, as a partial map from string keys. -/
abbrev StatesMap := String → Option TuningState

/-- Method `ThresholdAdjuster.get_state`. -/
def get_state (states : StatesMap) (stage guardrail_name : String) :
    Option TuningState :=
  states (stateKey stage guardrail_name)

/-- Method `ThresholdAdjuster.get_or_create_state`. -/
def get_or_create_state (states : StatesMap) (stage guardrail_name : String)
    (current_threshold : ℚ) : StatesMap × TuningState :=
  match states (stateKey stage guardrail_name) with
  | some st => (states, st)
  | none =>
    let st : TuningState :=
      { guardrail_name := guardrail_name
        stage := stage
        current_threshold := current_threshold
        initial_threshold := current_threshold }
    (fun k => if k = stateKey stage guardrail_name then some st else states k, st)

/-- Method `ThresholdAdjuster.should_continue_tuning`. -/
def should_continue_tuning (states : StatesMap) (stage guardrail_name : String) :
    Bool :=
  match get_state states stage guardrail_name with
  | none => true
  | some st => !st.converged

/-- Method `ThresholdAdjuster.update_metrics`. -/
def update_metrics (states : StatesMap) (stage guardrail_name : String)
    (metrics : GuardrailMetrics) : StatesMap :=
  match get_state states stage guardrail_name with
  | none => states
  | some st =>
    fun k =>
      if k = stateKey stage guardrail_name then
        some { st with metrics_history := st.metrics_history ++ [metrics] }
      else states k

/-- Per-classifier body of one iteration of `GuardrailFeedbackLoop.run`
(`feedback_loop.py` lines 300-334), restricted to its effect on the states
map: skip when `should_continue_tuning` is false, skip when no metrics are
available, otherwise run `calculate_adjustment` on the classifier's state. -/
def runClassifierStep (config : FeedbackLoopConfig) (states : StatesMap)
    (stage guardrail_name : String) (metrics : Option GuardrailMetrics)
    (iteration : ℕ) : StatesMap × Option ThresholdAdjustment :=
  if should_continue_tuning states stage guardrail_name then
    match get_state states stage guardrail_name, metrics with
    | some st, some m =>
      let result := calculate_adjustment config st m iteration
      (fun k => if k = stateKey stage guardrail_name then some result.1 else states k,
       result.2)
    | _, _ => (states, none)
  else
    (states, none)

/-- Iterating `runClassifierStep` over a list of later rounds, each round
carrying the classifier's observed metrics (if any) and its iteration
number. -/
def runRounds (config : FeedbackLoopConfig) (states : StatesMap)
    (stage guardrail_name : String)
    (rounds : List (Option GuardrailMetrics × ℕ)) : StatesMap :=
  match rounds with
  | [] => states
  | (m, i) :: rest =>
    runRounds config (runClassifierStep config states stage guardrail_name m i).1
      stage guardrail_name rest

/-- One `{name, config}` entry of a stage's `guardrails` list in the
configuration document; only the `confidence_threshold` field of `config`
is relevant to the tuner. -/
structure GuardrailEntry where
  name : String
  confidence_threshold : Option ℚ
deriving DecidableEq

/-- The working configuration document: keys `input`, `output`,
`pre_flight`, each holding a `guardrails` list. -/
structure GuardrailConfigDoc where
  input : List GuardrailEntry
  output : List GuardrailEntry
  pre_flight : List GuardrailEntry
deriving DecidableEq

/-- Reading `self._current_config.get(stage, ...).get("guardrails", [])`. -/
def stageGuardrails (doc : GuardrailConfigDoc) (stage : String) :
    List GuardrailEntry :=
  if stage = "input" then doc.input
  else if stage = "output" then doc.output
  else if stage = "pre_flight" then doc.pre_flight
  else []

/-- Replace a stage's guardrail list in the document. -/
def setStageGuardrails (doc : GuardrailConfigDoc) (stage : String)
    (grs : List GuardrailEntry) : GuardrailConfigDoc :=
  if stage = "input" then { doc with input := grs }
  else if stage = "output" then { doc with output := grs }
  else if stage = "pre_flight" then { doc with pre_flight := grs }
  else doc

/-- The search loop of `GuardrailFeedbackLoop._update_threshold`: set the
threshold on the first entry whose name matches; `none` when no entry
matches. -/
def updateGuardrailList (grs : List GuardrailEntry) (guardrail_name : String)
    (new_threshold : ℚ) : Option (List GuardrailEntry) :=
  match grs with
  | [] => none
  | gr :: rest =>
    if gr.name = guardrail_name then
      some ({ gr with confidence_threshold := some (round3 new_threshold) } :: rest)
    else
      match updateGuardrailList rest guardrail_name new_threshold with
      | some rest' => some (gr :: rest')
      | none => none

/-- Method `GuardrailFeedbackLoop._update_threshold` (`feedback_loop.py` lines
118-127): raises `ValueError` when the guardrail is not found in the
stage; modelled with `Except`. -/
def update_threshold (doc : GuardrailConfigDoc) (stage guardrail_name : String)
    (new_threshold : ℚ) : Except String GuardrailConfigDoc :=
  match updateGuardrailList (stageGuardrails doc stage) guardrail_name new_threshold with
  | some grs => Except.ok (setStageGuardrails doc stage grs)
  | none =>
    Except.error ("Guardrail " ++ guardrail_name ++ " not found in " ++ stage)

/-! ### Concrete scenario inputs used below -/

/-- A configuration whose step floor exceeds the initial step. -/
def configX5 : FeedbackLoopConfig := { step_size := 1/20, min_step_size := 1/10 }

/-- A fresh tuning state at threshold 0.5. -/
def stX5 : TuningState :=
  { guardrail_name := "moderation", stage := "input",
    current_threshold := 1/2, initial_threshold := 1/2 }

/-- Metrics with precision 0.80 below target and recall 0.95 achieved:
`determine_direction` yields INCREASE under default targets. -/
def metricsLowPrecision : GuardrailMetrics := ⟨4/5, 19/20, 87/100, 16, 4, 1, 19, 40⟩

/-- Metrics with recall 0.50 below target and precision 0.95 achieved:
`determine_direction` yields DECREASE under default targets. -/
def metricsLowRecall : GuardrailMetrics := ⟨19/20, 1/2, 13/20, 10, 1, 10, 19, 40⟩

/-- A configuration whose `max_threshold` 0.9506 is not a multiple of
0.001. -/
def configX3 : FeedbackLoopConfig := { max_threshold := 4753/5000 }

/-- A state sitting at threshold 0.95, inside the bounds of `configX3`. -/
def stX3 : TuningState :=
  { guardrail_name := "hallucination", stage := "output",
    current_threshold := 19/20, initial_threshold := 19/20 }

/-- A fresh tuning state at threshold 0.5 for the C3 witness. -/
def stW3 : TuningState :=
  { guardrail_name := "urls", stage := "input",
    current_threshold := 1/2, initial_threshold := 1/2 }

/-- A state one oscillation away from the default limit of 3, whose last
move was INCREASE. -/
def stX4 : TuningState :=
  { guardrail_name := "nsfw", stage := "input",
    current_threshold := 1/2, initial_threshold := 1/2,
    oscillation_count := 2, last_direction := some TuningDirection.increase }

/-- The no-op record returned for `stX4` when the oscillation limit is
reached. -/
def adjX4 : ThresholdAdjustment :=
  { guardrail_name := "nsfw", stage := "input",
    old_threshold := 1/2, new_threshold := 1/2,
    direction := TuningDirection.stable,
    reason := oscillationReason {}, iteration := 4 }

/-- A fresh tuning state at threshold 0.5 for the C4 witness. -/
def stW4 : TuningState :=
  { guardrail_name := "keywords", stage := "input",
    current_threshold := 1/2, initial_threshold := 1/2 }

/-- A state one oscillation away from the default limit, whose last move
was INCREASE, used for the C6 witness. -/
def stW6 : TuningState :=
  { guardrail_name := "topics", stage := "pre_flight",
    current_threshold := 3/5, initial_threshold := 3/5,
    oscillation_count := 2, last_direction := some TuningDirection.increase }

/-- The no-op record returned for `stW6` at the oscillation limit. -/
def adjW6 : ThresholdAdjustment :=
  { guardrail_name := "topics", stage := "pre_flight",
    old_threshold := 3/5, new_threshold := 3/5,
    direction := TuningDirection.stable,
    reason := oscillationReason {}, iteration := 5 }

/-! ### General lemmas about the embedded operations -/

theorem round3_mono {a b : ℚ} (h : a ≤ b) : round3 a ≤ round3 b := by
  unfold round3
  have hr : round (1000 * a) ≤ round (1000 * b) := by
    rw [round_eq, round_eq]
    exact Int.floor_mono (by linarith)
  gcongr

theorem round3_thousandth (k : ℤ) : round3 ((k : ℚ) / 1000) = (k : ℚ) / 1000 := by
  unfold round3
  have h : (1000 : ℚ) * ((k : ℚ) / 1000) = (k : ℚ) := by
    field_simp
  rw [h, round_intCast]

theorem effectiveStep_pos (config : FeedbackLoopConfig) (n : ℕ)
    (h1 : 0 < config.step_size) (h2 : 0 < config.min_step_size) :
    0 < effectiveStep config n := by
  unfold effectiveStep
  split
  · exact lt_max_iff.mpr (Or.inl h2)
  · exact h1

/-! ### C8: STABLE direction marks convergence and is idempotent -/

/-- C8: when `determine_direction` returns STABLE, `calculate_adjustment`
sets `converged = true` with stop reason "Targets achieved", returns no
adjustment, and leaves `current_threshold` and all three histories
unchanged; calling it again on the resulting state with the same snapshot
returns that state again, with no further history growth. -/
theorem C8_stable_marks_convergence (config : FeedbackLoopConfig) (st : TuningState)
    (m : GuardrailMetrics) (i j : ℕ)
    (h : determine_direction config.targets m = TuningDirection.stable) :
    calculate_adjustment config st m i =
      ({ st with converged := true, stop_reason := some "Targets achieved" }, none) ∧
    calculate_adjustment config
        { st with converged := true, stop_reason := some "Targets achieved" } m j =
      ({ st with converged := true, stop_reason := some "Targets achieved" }, none) := by
  constructor <;> simp [calculate_adjustment, h]

/-- Witness for C8 at Scenario D: precision 0.92, recall 0.93, default
targets 0.90/0.90 with tolerance 0.02. -/
theorem C8_stable_marks_convergence_witness :
    determine_direction (FeedbackLoopConfig.targets {}) ⟨23/25, 93/100, 23/25, 46, 4, 3, 47, 100⟩ =
      TuningDirection.stable ∧
    calculate_adjustment {}
        { guardrail_name := "jailbreak", stage := "input",
          current_threshold := 1/2, initial_threshold := 1/2 }
        ⟨23/25, 93/100, 23/25, 46, 4, 3, 47, 100⟩ 1 =
      ({ guardrail_name := "jailbreak", stage := "input",
         current_threshold := 1/2, initial_threshold := 1/2,
         converged := true, stop_reason := some "Targets achieved" }, none) := by
  have h : determine_direction (FeedbackLoopConfig.targets {}) ⟨23/25, 93/100, 23/25, 46, 4, 3, 47, 100⟩ =
      TuningDirection.stable := by
    norm_num [determine_direction, calculate_gaps]
  refine ⟨h, ?_⟩
  exact (C8_stable_marks_convergence {}
    { guardrail_name := "jailbreak", stage := "input",
      current_threshold := 1/2, initial_threshold := 1/2 }
    ⟨23/25, 93/100, 23/25, 46, 4, 3, 47, 100⟩ 1 1 h).1

/-! ### C1: tie-break under f1 priority -/

/-- C1, as stated, is false: the tie goes to DECREASE. Concrete input:
default targets (0.90/0.90, priority f1, tolerance 0.02) and metrics with
precision = recall = 0.5, so both gaps equal 0.4 and neither metric is
achieved; `determine_direction` returns DECREASE, not INCREASE. -/
theorem C1_counterexample :
    (TuningTarget.priority {} = "f1") ∧
    (calculate_gaps {} ⟨1/2, 1/2, 1/2, 10, 10, 10, 10, 40⟩).precision_achieved = false ∧
    (calculate_gaps {} ⟨1/2, 1/2, 1/2, 10, 10, 10, 10, 40⟩).recall_achieved = false ∧
    (calculate_gaps {} ⟨1/2, 1/2, 1/2, 10, 10, 10, 10, 40⟩).precision_gap =
      (calculate_gaps {} ⟨1/2, 1/2, 1/2, 10, 10, 10, 10, 40⟩).recall_gap ∧
    determine_direction {} ⟨1/2, 1/2, 1/2, 10, 10, 10, 10, 40⟩ = TuningDirection.decrease ∧
    TuningDirection.decrease ≠ TuningDirection.increase := by
  refine ⟨rfl, by norm_num [calculate_gaps], by norm_num [calculate_gaps],
    by norm_num [calculate_gaps], ?_, by simp⟩
  norm_num [determine_direction, calculate_gaps]
  intro h
  exact absurd h (by decide)

/-- C1 amended: for every metrics snapshot in which neither precision nor
recall is achieved, the priority is f1, and the precision gap equals the
recall gap, `determine_direction` returns DECREASE (the strict comparison
`precision_gap > recall_gap` fails on a tie, so the tie resolves to the
DECREASE arm). -/
theorem C1_f1_tie_resolves_to_decrease (targets : TuningTarget) (metrics : GuardrailMetrics)
    (hf : targets.priority = "f1")
    (hp : (calculate_gaps targets metrics).precision_achieved = false)
    (hr : (calculate_gaps targets metrics).recall_achieved = false)
    (heq : (calculate_gaps targets metrics).precision_gap =
      (calculate_gaps targets metrics).recall_gap) :
    determine_direction targets metrics = TuningDirection.decrease := by
  simp only [calculate_gaps, decide_eq_false_iff_not, not_le, ge_iff_le] at hp hr heq
  simp only [determine_direction, calculate_gaps, hf]
  have h1 : ¬(decide (metrics.precision ≥ targets.precision_target - targets.tolerance) &&
      decide (metrics.«recall» ≥ targets.recall_target - targets.tolerance)) = true := by
    simp only [Bool.and_eq_true, decide_eq_true_eq, ge_iff_le, not_and]
    intro hcp
    linarith
  rw [if_neg h1]
  rw [if_neg (by push_neg; intro _; linarith)]
  rw [if_neg (by push_neg; intro _; linarith)]
  rw [if_neg (by simp), if_neg (by simp)]
  rw [if_neg (by rw [heq]; exact lt_irrefl _)]

/-- Witness for the amended C1: precision = recall = 0.6 against default
targets; both gaps are 0.3 and the direction is DECREASE. -/
theorem C1_f1_tie_resolves_to_decrease_witness :
    (TuningTarget.priority {} = "f1") ∧
    (calculate_gaps {} ⟨3/5, 3/5, 3/5, 12, 8, 8, 12, 40⟩).precision_achieved = false ∧
    determine_direction {} ⟨3/5, 3/5, 3/5, 12, 8, 8, 12, 40⟩ = TuningDirection.decrease := by
  refine ⟨rfl, by norm_num [calculate_gaps], ?_⟩
  exact C1_f1_tie_resolves_to_decrease {} ⟨3/5, 3/5, 3/5, 12, 8, 8, 12, 40⟩ rfl
    (by norm_num [calculate_gaps]) (by norm_num [calculate_gaps])
    (by norm_num [calculate_gaps])

/-! ### C7: oscillation count is monotone -/

theorem applyStep_oscillation_count (config : FeedbackLoopConfig) (st : TuningState)
    (d : TuningDirection) (m : GuardrailMetrics) (i : ℕ) :
    ((applyStep config st d m i).1).oscillation_count = st.oscillation_count := by
  simp only [applyStep]
  split <;> split <;> rfl

/-- C7: for every call to `calculate_adjustment`, the resulting oscillation
count is the old count plus one exactly when the computed direction is
non-STABLE and differs from a non-null `last_direction`, and the old count
otherwise; in particular it never decreases, and `update_metrics` leaves
every stored state's oscillation count unchanged. -/
theorem C7_oscillation_count_monotone (config : FeedbackLoopConfig) (st : TuningState)
    (m : GuardrailMetrics) (i : ℕ) :
    (((calculate_adjustment config st m i).1).oscillation_count =
      if determine_direction config.targets m ≠ TuningDirection.stable ∧
          st.last_direction ≠ none ∧
          st.last_direction ≠ some (determine_direction config.targets m) then
        st.oscillation_count + 1
      else st.oscillation_count) ∧
    st.oscillation_count ≤ ((calculate_adjustment config st m i).1).oscillation_count ∧
    (∀ (states : StatesMap) (stage guardrail_name : String) (metrics : GuardrailMetrics)
        (k : String),
      Option.map TuningState.oscillation_count
          (update_metrics states stage guardrail_name metrics k) =
        Option.map TuningState.oscillation_count (states k)) := by
  have hmain : ((calculate_adjustment config st m i).1).oscillation_count =
      if determine_direction config.targets m ≠ TuningDirection.stable ∧
          st.last_direction ≠ none ∧
          st.last_direction ≠ some (determine_direction config.targets m) then
        st.oscillation_count + 1
      else st.oscillation_count := by
    by_cases hS : determine_direction config.targets m = TuningDirection.stable
    · simp [calculate_adjustment, hS]
    · simp only [calculate_adjustment, if_neg hS]
      rcases hL : st.last_direction with _ | last
      · simp [hS, hL, applyStep_oscillation_count]
      · by_cases hEq : last = determine_direction config.targets m
        · simp [hS, hL, hEq, applyStep_oscillation_count]
        · simp only [hL, if_neg (by simp [hEq] : ¬¬last ≠ determine_direction config.targets m)]
          rw [if_pos (by simp [hEq])]
          split
          · simp [hS, hL, hEq]
          · simp [hS, hL, hEq, applyStep_oscillation_count]
  refine ⟨hmain, ?_, ?_⟩
  · rw [hmain]
    split <;> omega
  · intro states stage guardrail_name metrics k
    unfold update_metrics
    rcases h : get_state states stage guardrail_name with _ | st0
    · rfl
    · simp only
      by_cases hk : k = stateKey stage guardrail_name
      · subst hk
        unfold get_state at h
        simp [h]
      · simp [hk]

/-! ### C2: converged is terminal -/

theorem applyStep_converged_mono (config : FeedbackLoopConfig) (st : TuningState)
    (d : TuningDirection) (m : GuardrailMetrics) (i : ℕ) (h : st.converged = true) :
    ((applyStep config st d m i).1).converged = true := by
  simp only [applyStep]
  split <;> split <;> first | rfl | simpa using h

/-- C2: once a classifier's state has `converged = true`,
`should_continue_tuning` is false for it, the orchestrator's per-round step
skips it so no further adjustment is computed and its state (in particular
`current_threshold`) is unchanged over any sequence of later rounds, and
`calculate_adjustment` never resets `converged` to false for any state. -/
theorem C2_converged_is_terminal (config : FeedbackLoopConfig) (states : StatesMap)
    (stage guardrail_name : String) (st : TuningState)
    (hst : get_state states stage guardrail_name = some st)
    (hc : st.converged = true) :
    should_continue_tuning states stage guardrail_name = false ∧
    (∀ (m : Option GuardrailMetrics) (i : ℕ),
      runClassifierStep config states stage guardrail_name m i = (states, none)) ∧
    (∀ rounds : List (Option GuardrailMetrics × ℕ),
      runRounds config states stage guardrail_name rounds = states) ∧
    (∀ (s : TuningState) (m : GuardrailMetrics) (i : ℕ), s.converged = true →
      ((calculate_adjustment config s m i).1).converged = true) := by
  have hA : should_continue_tuning states stage guardrail_name = false := by
    simp [should_continue_tuning, hst, hc]
  have hB : ∀ (m : Option GuardrailMetrics) (i : ℕ),
      runClassifierStep config states stage guardrail_name m i = (states, none) := by
    intro m i
    simp [runClassifierStep, hA]
  refine ⟨hA, hB, ?_, ?_⟩
  · intro rounds
    induction rounds with
    | nil => rfl
    | cons r rest ih =>
      obtain ⟨m, i⟩ := r
      simp only [runRounds, hB m i, ih]
  · intro s m i hs
    by_cases hS : determine_direction config.targets m = TuningDirection.stable
    · simp [calculate_adjustment, hS]
    · simp only [calculate_adjustment, if_neg hS]
      split
      · split
        · split
          · rfl
          · exact applyStep_converged_mono _ _ _ _ _ (by simpa using hs)
        · exact applyStep_converged_mono _ _ _ _ _ hs
      · exact applyStep_converged_mono _ _ _ _ _ hs

/-- Witness for C2: a converged state under the key "input:jailbreak"
stays untouched across a later round. -/
theorem C2_converged_is_terminal_witness :
    get_state
        (fun k => if k = stateKey "input" "jailbreak" then
          some { guardrail_name := "jailbreak", stage := "input",
                 current_threshold := 3/5, initial_threshold := 1/2,
                 converged := true, stop_reason := some "Targets achieved" }
          else none) "input" "jailbreak" =
      some { guardrail_name := "jailbreak", stage := "input",
             current_threshold := 3/5, initial_threshold := 1/2,
             converged := true, stop_reason := some "Targets achieved" } ∧
    should_continue_tuning
        (fun k => if k = stateKey "input" "jailbreak" then
          some { guardrail_name := "jailbreak", stage := "input",
                 current_threshold := 3/5, initial_threshold := 1/2,
                 converged := true, stop_reason := some "Targets achieved" }
          else none) "input" "jailbreak" = false ∧
    runRounds {}
        (fun k => if k = stateKey "input" "jailbreak" then
          some { guardrail_name := "jailbreak", stage := "input",
                 current_threshold := 3/5, initial_threshold := 1/2,
                 converged := true, stop_reason := some "Targets achieved" }
          else none) "input" "jailbreak" [(some ⟨1/2, 1/2, 1/2, 5, 5, 5, 5, 20⟩, 1)] =
      (fun k => if k = stateKey "input" "jailbreak" then
        some { guardrail_name := "jailbreak", stage := "input",
               current_threshold := 3/5, initial_threshold := 1/2,
               converged := true, stop_reason := some "Targets achieved" }
        else none) := by
  have hget : get_state
      (fun k => if k = stateKey "input" "jailbreak" then
        some { guardrail_name := "jailbreak", stage := "input",
               current_threshold := 3/5, initial_threshold := 1/2,
               converged := true, stop_reason := some "Targets achieved" }
        else none) "input" "jailbreak" =
      some { guardrail_name := "jailbreak", stage := "input",
             current_threshold := 3/5, initial_threshold := 1/2,
             converged := true, stop_reason := some "Targets achieved" } := by
    simp [get_state]
  have h := C2_converged_is_terminal {}
    (fun k => if k = stateKey "input" "jailbreak" then
      some { guardrail_name := "jailbreak", stage := "input",
             current_threshold := 3/5, initial_threshold := 1/2,
             converged := true, stop_reason := some "Targets achieved" }
      else none) "input" "jailbreak" _ hget rfl
  exact ⟨hget, h.1, h.2.2.1 [(some ⟨1/2, 1/2, 1/2, 5, 5, 5, 5, 20⟩, 1)]⟩

/-! ### C10: update_metrics appends one entry and changes nothing else -/

/-- C10: if a state exists for (stage, name), `update_metrics` maps the
state at that key to the same record with exactly one metrics entry
appended (every other field, in particular `current_threshold`, is that of
the old record) and leaves every other key unchanged; if no state exists,
the whole states map is unchanged and no error occurs. -/
theorem C10_update_metrics_frame (states : StatesMap) (stage guardrail_name : String)
    (metrics : GuardrailMetrics) :
    (∀ st : TuningState, get_state states stage guardrail_name = some st →
      update_metrics states stage guardrail_name metrics (stateKey stage guardrail_name) =
        some { st with metrics_history := st.metrics_history ++ [metrics] } ∧
      (∀ k : String, k ≠ stateKey stage guardrail_name →
        update_metrics states stage guardrail_name metrics k = states k)) ∧
    (get_state states stage guardrail_name = none →
      update_metrics states stage guardrail_name metrics = states) := by
  constructor
  · intro st hst
    constructor
    · simp [update_metrics, hst]
    · intro k hk
      simp [update_metrics, hst, hk]
  · intro hnone
    simp [update_metrics, hnone]

/-- Witness for C10: the key "output:pii" holds a state; `update_metrics`
appends the observation to its history. -/
theorem C10_update_metrics_frame_witness :
    get_state
        (fun k => if k = stateKey "output" "pii" then
          some { guardrail_name := "pii", stage := "output",
                 current_threshold := 7/10, initial_threshold := 7/10 }
          else none) "output" "pii" =
      some { guardrail_name := "pii", stage := "output",
             current_threshold := 7/10, initial_threshold := 7/10 } ∧
    update_metrics
        (fun k => if k = stateKey "output" "pii" then
          some { guardrail_name := "pii", stage := "output",
                 current_threshold := 7/10, initial_threshold := 7/10 }
          else none) "output" "pii" ⟨9/10, 9/10, 9/10, 9, 1, 1, 9, 20⟩
        (stateKey "output" "pii") =
      some { guardrail_name := "pii", stage := "output",
             current_threshold := 7/10, initial_threshold := 7/10,
             metrics_history := [⟨9/10, 9/10, 9/10, 9, 1, 1, 9, 20⟩] } := by
  have hget : get_state
      (fun k => if k = stateKey "output" "pii" then
        some { guardrail_name := "pii", stage := "output",
               current_threshold := 7/10, initial_threshold := 7/10 }
        else none) "output" "pii" =
      some { guardrail_name := "pii", stage := "output",
             current_threshold := 7/10, initial_threshold := 7/10 } := by
    simp [get_state]
  have h := ((C10_update_metrics_frame
    (fun k => if k = stateKey "output" "pii" then
      some { guardrail_name := "pii", stage := "output",
             current_threshold := 7/10, initial_threshold := 7/10 }
      else none) "output" "pii" ⟨9/10, 9/10, 9/10, 9, 1, 1, 9, 20⟩).1 _ hget).1
  exact ⟨hget, h⟩

/-! ### C9: updating a missing guardrail raises -/

theorem updateGuardrailList_none_of_absent (grs : List GuardrailEntry)
    (guardrail_name : String) (t : ℚ)
    (h : ∀ gr ∈ grs, gr.name ≠ guardrail_name) :
    updateGuardrailList grs guardrail_name t = none := by
  induction grs with
  | nil => rfl
  | cons gr rest ih =>
    simp only [updateGuardrailList]
    rw [if_neg (h gr (by simp))]
    rw [ih fun g hg => h g (by simp [hg])]

/-- C9: attempting to update the threshold of a classifier name absent
from the given stage of the working configuration produces the
`ValueError` (modelled as `Except.error` with the source's message), so no
modified configuration is ever produced and the update is never silently
ignored. -/
theorem C9_missing_guardrail_errors (doc : GuardrailConfigDoc)
    (stage guardrail_name : String) (t : ℚ)
    (h : ∀ gr ∈ stageGuardrails doc stage, gr.name ≠ guardrail_name) :
    update_threshold doc stage guardrail_name t =
      Except.error ("Guardrail " ++ guardrail_name ++ " not found in " ++ stage) := by
  unfold update_threshold
  rw [updateGuardrailList_none_of_absent _ _ _ h]

/-- Witness for C9: the input stage holds only "jailbreak"; updating
"off_topic" errors. -/
theorem C9_missing_guardrail_errors_witness :
    (∀ gr ∈ stageGuardrails
        { input := [{ name := "jailbreak", confidence_threshold := some (7/10) }],
          output := [], pre_flight := [] } "input", gr.name ≠ "off_topic") ∧
    update_threshold
        { input := [{ name := "jailbreak", confidence_threshold := some (7/10) }],
          output := [], pre_flight := [] } "input" "off_topic" (4/5) =
      Except.error ("Guardrail " ++ "off_topic" ++ " not found in " ++ "input") := by
  have h : ∀ gr ∈ stageGuardrails
      { input := [{ name := "jailbreak", confidence_threshold := some (7/10) }],
        output := [], pre_flight := [] } "input", gr.name ≠ "off_topic" := by
    intro gr hgr
    simp [stageGuardrails] at hgr
    subst hgr
    decide
  exact ⟨h, C9_missing_guardrail_errors _ "input" "off_topic" (4/5) h⟩

/-! ### C5: the effective step schedule -/

/-- C5, as stated, is false: when `oscillation_count = 0` the code skips
the `max(min_step_size, ...)` clamp and uses `step_size` directly, so with
`min_step_size = 0.1 > step_size = 0.05` the effective step of a
non-STABLE call is 0.05, not the claimed `max` value 0.1; the step also
falls below `min_step_size` and increases (0.05 to 0.1) from oscillation
count 0 to 1. The resulting threshold move 0.5 to 0.55 confirms the step
actually used. -/
theorem C5_counterexample :
    0 < configX5.step_size ∧ 0 < configX5.min_step_size ∧
    determine_direction configX5.targets metricsLowPrecision ≠ TuningDirection.stable ∧
    stX5.oscillation_count = 0 ∧
    effectiveStep configX5 stX5.oscillation_count = 1/20 ∧
    max configX5.min_step_size (configX5.step_size / 2 ^ stX5.oscillation_count) = 1/10 ∧
    ((1 : ℚ)/20) ≠ 1/10 ∧
    effectiveStep configX5 0 < configX5.min_step_size ∧
    effectiveStep configX5 0 < effectiveStep configX5 1 ∧
    ((calculate_adjustment configX5 stX5 metricsLowPrecision 1).1).current_threshold = 11/20 ∧
    stX5.current_threshold +
      max configX5.min_step_size (configX5.step_size / 2 ^ stX5.oscillation_count) = 3/5 := by
  refine ⟨by norm_num [configX5], by norm_num [configX5], ?_, rfl,
    by norm_num [configX5, stX5, effectiveStep],
    by norm_num [configX5, stX5], by norm_num,
    by norm_num [configX5, effectiveStep],
    by norm_num [configX5, effectiveStep], ?_,
    by norm_num [configX5, stX5]⟩
  · have h : determine_direction configX5.targets metricsLowPrecision =
        TuningDirection.increase := by
      norm_num [configX5, metricsLowPrecision, determine_direction, calculate_gaps]
    rw [h]
    simp
  · norm_num [configX5, stX5, metricsLowPrecision, calculate_adjustment,
      determine_direction, calculate_gaps, applyStep, effectiveStep, round3, round_eq]
    simp

/-- C5 amended: for a configuration with positive `step_size` and
`min_step_size ≤ step_size`, the effective step used by
`calculate_adjustment` equals `max(min_step_size, step_size / 2^count)`
for every oscillation count (at count 0 the code returns `step_size`,
which then coincides with the `max`), is non-increasing in the
oscillation count, and never falls below `min_step_size`. Without
`min_step_size ≤ step_size` the equality, the floor and the monotonicity
all fail at count 0. -/
theorem C5_step_schedule (config : FeedbackLoopConfig)
    (hpos : 0 < config.step_size) (hms : config.min_step_size ≤ config.step_size) :
    (∀ n : ℕ, effectiveStep config n =
      max config.min_step_size (config.step_size / 2 ^ n)) ∧
    (∀ a b : ℕ, a ≤ b → effectiveStep config b ≤ effectiveStep config a) ∧
    (∀ n : ℕ, config.min_step_size ≤ effectiveStep config n) := by
  have hfor : ∀ n : ℕ, effectiveStep config n =
      max config.min_step_size (config.step_size / 2 ^ n) := by
    intro n
    unfold effectiveStep
    rcases Nat.eq_zero_or_pos n with h0 | hn
    · subst h0
      simp [max_eq_right hms]
    · rw [if_pos hn]
  refine ⟨hfor, ?_, ?_⟩
  · intro a b hab
    rw [hfor, hfor]
    refine max_le_max le_rfl ?_
    gcongr
    all_goals first | exact le_of_lt hpos | exact hab | norm_num
  · intro n
    rw [hfor]
    exact le_max_left _ _

/-- Witness for the amended C5 at the default configuration
(step 0.05, floor 0.01). -/
theorem C5_step_schedule_witness :
    0 < FeedbackLoopConfig.step_size {} ∧
    FeedbackLoopConfig.min_step_size {} ≤ FeedbackLoopConfig.step_size {} ∧
    effectiveStep {} 2 =
      max (FeedbackLoopConfig.min_step_size {}) (FeedbackLoopConfig.step_size {} / 2 ^ 2) ∧
    effectiveStep {} 3 ≤ effectiveStep {} 1 ∧
    FeedbackLoopConfig.min_step_size {} ≤ effectiveStep {} 0 := by
  have h := C5_step_schedule {} (by norm_num) (by norm_num)
  exact ⟨by norm_num, by norm_num, h.1 2, h.2.1 1 3 (by norm_num), h.2.2 0⟩

/-! ### C4: which adjustment records reach the audit trail -/

theorem applyStep_snd_ne_none (config : FeedbackLoopConfig) (st : TuningState)
    (d : TuningDirection) (m : GuardrailMetrics) (i : ℕ) :
    (applyStep config st d m i).2 ≠ none := by
  simp only [applyStep]
  split <;> split <;> simp

theorem applyStep_adjustments (config : FeedbackLoopConfig) (st : TuningState)
    (d : TuningDirection) (m : GuardrailMetrics) (i : ℕ) (st' : TuningState)
    (adj : ThresholdAdjustment) (hd : d ≠ TuningDirection.stable)
    (h : applyStep config st d m i = (st', some adj)) :
    (adj.direction ≠ TuningDirection.stable →
      st'.adjustments = st.adjustments ++ [adj]) ∧
    (adj.direction = TuningDirection.stable → st'.adjustments = st.adjustments) := by
  simp only [applyStep] at h
  split at h <;> split at h
  all_goals
    injection h with h1 h2
    injection h2 with h2
    subst h1
    subst h2
    constructor <;> intro hx <;>
      first | rfl | exact absurd rfl hx | exact absurd hx hd

theorem applyStep_adjustments_proj (config : FeedbackLoopConfig) (st : TuningState)
    (d : TuningDirection) (m : GuardrailMetrics) (i : ℕ)
    (hd : d ≠ TuningDirection.stable) :
    (∀ adj : ThresholdAdjustment, (applyStep config st d m i).2 = some adj →
      (adj.direction ≠ TuningDirection.stable →
        ((applyStep config st d m i).1).adjustments = st.adjustments ++ [adj]) ∧
      (adj.direction = TuningDirection.stable →
        ((applyStep config st d m i).1).adjustments = st.adjustments)) ∧
    ((applyStep config st d m i).2 = none →
      ((applyStep config st d m i).1).adjustments = st.adjustments) := by
  constructor
  · intro adj h
    have heq : applyStep config st d m i =
        ((applyStep config st d m i).1, some adj) := by
      rw [← h]
    exact applyStep_adjustments config st d m i _ adj hd heq
  · intro h
    exact absurd h (applyStep_snd_ne_none config st d m i)

/-- C4, as stated, is false: the STABLE no-op record emitted at the
oscillation limit is returned but never appended to the state's
`adjustments` list. Concrete input: a state with `oscillation_count = 2`
and `last_direction = INCREASE` receiving a DECREASE direction under the
default limit 3 — the call returns a STABLE record, yet the resulting
adjustments list stays empty. -/
theorem C4_counterexample :
    (calculate_adjustment {} stX4 metricsLowRecall 4).2 = some adjX4 ∧
    adjX4.direction = TuningDirection.stable ∧
    ((calculate_adjustment {} stX4 metricsLowRecall 4).1).adjustments = [] ∧
    adjX4 ∉ ((calculate_adjustment {} stX4 metricsLowRecall 4).1).adjustments := by
  have hdir : determine_direction ({} : TuningTarget) metricsLowRecall =
      TuningDirection.decrease := by
    norm_num [metricsLowRecall, determine_direction, calculate_gaps]
  refine ⟨?_, rfl, ?_, ?_⟩ <;>
    simp only [calculate_adjustment, stX4, hdir, adjX4] <;> simp

/-- C4 amended: a ThresholdAdjustment returned by `calculate_adjustment`
is appended to the classifier's adjustments list exactly when its
direction is non-STABLE; the STABLE no-op records (oscillation limit,
bound saturation) are returned but not recorded, and a null return leaves
the list unchanged. -/
theorem C4_adjustment_recording (config : FeedbackLoopConfig) (st : TuningState)
    (m : GuardrailMetrics) (i : ℕ) :
    (∀ adj : ThresholdAdjustment, (calculate_adjustment config st m i).2 = some adj →
      (adj.direction ≠ TuningDirection.stable →
        ((calculate_adjustment config st m i).1).adjustments = st.adjustments ++ [adj]) ∧
      (adj.direction = TuningDirection.stable →
        ((calculate_adjustment config st m i).1).adjustments = st.adjustments)) ∧
    ((calculate_adjustment config st m i).2 = none →
      ((calculate_adjustment config st m i).1).adjustments = st.adjustments) := by
  by_cases hS : determine_direction config.targets m = TuningDirection.stable
  · constructor
    · intro adj h
      simp [calculate_adjustment, hS] at h
    · intro _
      simp [calculate_adjustment, hS]
  · have hd : determine_direction config.targets m ≠ TuningDirection.stable := hS
    simp only [calculate_adjustment, if_neg hS]
    split
    · split
      · split
        · constructor
          · intro adj h
            simp only [Option.some.injEq] at h
            subst h
            exact ⟨fun hne => absurd rfl hne, fun _ => rfl⟩
          · intro h
            simp at h
        · exact applyStep_adjustments_proj config _ _ m i hd
      · exact applyStep_adjustments_proj config _ _ m i hd
    · exact applyStep_adjustments_proj config _ _ m i hd

/-- Witness for the amended C4: a normal INCREASE adjustment from 0.5 to
0.55 is appended to the adjustments list. -/
theorem C4_adjustment_recording_witness :
    (calculate_adjustment {} stW4 metricsLowPrecision 1).2 =
      some { guardrail_name := "keywords", stage := "input",
             old_threshold := 1/2, new_threshold := 11/20,
             direction := TuningDirection.increase,
             reason := "Precision below target, increasing threshold by " ++ fmt3 (1/20),
             iteration := 1 } ∧
    ((calculate_adjustment {} stW4 metricsLowPrecision 1).1).adjustments =
      stW4.adjustments ++
        [{ guardrail_name := "keywords", stage := "input",
           old_threshold := 1/2, new_threshold := 11/20,
           direction := TuningDirection.increase,
           reason := "Precision below target, increasing threshold by " ++ fmt3 (1/20),
           iteration := 1 }] := by
  have h2 : (calculate_adjustment {} stW4 metricsLowPrecision 1).2 =
      some { guardrail_name := "keywords", stage := "input",
             old_threshold := 1/2, new_threshold := 11/20,
             direction := TuningDirection.increase,
             reason := "Precision below target, increasing threshold by " ++ fmt3 (1/20),
             iteration := 1 } := by
    norm_num [stW4, metricsLowPrecision, calculate_adjustment, determine_direction,
      calculate_gaps, applyStep, effectiveStep, round3, round_eq]
    simp
  exact ⟨h2, ((C4_adjustment_recording {} stW4 metricsLowPrecision 1).1 _ h2).1 (by simp)⟩

/-! ### C6: the STABLE no-op stop records -/

theorem oscillationReason_ne_targets (config : FeedbackLoopConfig) :
    oscillationReason config ≠ "Targets achieved" := by
  intro hcontra
  simp only [oscillationReason] at hcontra
  have hlen := congrArg String.length hcontra
  rw [String.length_append, String.length_append] at hlen
  have e1 : "Oscillation limit reached (".length = 27 := rfl
  have e2 : ")".length = 1 := rfl
  have e3 : "Targets achieved".length = 16 := rfl
  rw [e1, e2, e3] at hlen
  omega

theorem applyStep_stable_record (config : FeedbackLoopConfig) (st : TuningState)
    (d : TuningDirection) (m : GuardrailMetrics) (i : ℕ) (st' : TuningState)
    (adj : ThresholdAdjustment) (hd : d ≠ TuningDirection.stable)
    (h : applyStep config st d m i = (st', some adj))
    (hadj : adj.direction = TuningDirection.stable) :
    st'.converged = true ∧
    adj.old_threshold = adj.new_threshold ∧
    adj.old_threshold = st.current_threshold ∧
    st'.current_threshold = st.current_threshold ∧
    st'.stop_reason = some adj.reason ∧
    adj.reason = "Threshold at bounds limit" := by
  simp only [applyStep] at h
  split at h <;> split at h <;>
    (injection h with h1 h2; injection h2 with h2; subst h1; subst h2)
  all_goals first
    | exact absurd hadj hd
    | (rename_i hb
       exact ⟨rfl, hb.symm, rfl, rfl, rfl, rfl⟩)

/-- C6: whenever `calculate_adjustment` returns a STABLE-direction record
(it does so exactly when it stops at the oscillation limit or at a bound),
it marks the state converged, the record's old and new thresholds both
equal the unchanged `current_threshold`, the stop reason is the record's
reason — "Oscillation limit reached (<limit>)" when the flip count has
just reached the limit, "Threshold at bounds limit" otherwise — and never
"Targets achieved". -/
theorem C6_stable_stop_records (config : FeedbackLoopConfig) (st : TuningState)
    (m : GuardrailMetrics) (i : ℕ) (adj : ThresholdAdjustment)
    (h : (calculate_adjustment config st m i).2 = some adj)
    (hd : adj.direction = TuningDirection.stable) :
    ((calculate_adjustment config st m i).1).converged = true ∧
    adj.old_threshold = adj.new_threshold ∧
    adj.old_threshold = st.current_threshold ∧
    ((calculate_adjustment config st m i).1).current_threshold = st.current_threshold ∧
    ((calculate_adjustment config st m i).1).stop_reason = some adj.reason ∧
    (if st.last_direction ≠ none ∧
        st.last_direction ≠ some (determine_direction config.targets m) ∧
        config.oscillation_limit ≤ st.oscillation_count + 1 then
      adj.reason = oscillationReason config
    else
      adj.reason = "Threshold at bounds limit") ∧
    adj.reason ≠ "Targets achieved" := by
  by_cases hS : determine_direction config.targets m = TuningDirection.stable
  · simp [calculate_adjustment, hS] at h
  · rcases hL : st.last_direction with _ | last
    · have hE : calculate_adjustment config st m i =
          applyStep config st (determine_direction config.targets m) m i := by
        simp only [calculate_adjustment, if_neg hS, hL]
      rw [hE] at h ⊢
      have heq : applyStep config st (determine_direction config.targets m) m i =
          ((applyStep config st (determine_direction config.targets m) m i).1, some adj) := by
        rw [← h]
      have hrec := applyStep_stable_record config st _ m i _ adj hS heq hd
      rw [if_neg (fun hc => hc.1 rfl)]
      exact ⟨hrec.1, hrec.2.1, hrec.2.2.1, hrec.2.2.2.1, hrec.2.2.2.2.1,
        hrec.2.2.2.2.2, by rw [hrec.2.2.2.2.2]; decide⟩
    · by_cases hne : last = determine_direction config.targets m
      · have hE : calculate_adjustment config st m i =
            applyStep config st (determine_direction config.targets m) m i := by
          simp only [calculate_adjustment, if_neg hS, hL]
          rw [if_neg (by simp [hne])]
        rw [hE] at h ⊢
        have heq : applyStep config st (determine_direction config.targets m) m i =
            ((applyStep config st (determine_direction config.targets m) m i).1, some adj) := by
          rw [← h]
        have hrec := applyStep_stable_record config st _ m i _ adj hS heq hd
        rw [if_neg (fun hc => hc.2.1 (by rw [hne]))]
        exact ⟨hrec.1, hrec.2.1, hrec.2.2.1, hrec.2.2.2.1, hrec.2.2.2.2.1,
          hrec.2.2.2.2.2, by rw [hrec.2.2.2.2.2]; decide⟩
      · by_cases hlim : config.oscillation_limit ≤ st.oscillation_count + 1
        · have hE : calculate_adjustment config st m i =
              ({ st with
                  oscillation_count := st.oscillation_count + 1
                  converged := true
                  stop_reason := some (oscillationReason config) },
               some { guardrail_name := st.guardrail_name, stage := st.stage,
                      old_threshold := st.current_threshold,
                      new_threshold := st.current_threshold,
                      direction := TuningDirection.stable,
                      reason := oscillationReason config, iteration := i }) := by
            simp only [calculate_adjustment, if_neg hS, hL]
            rw [if_pos (by simp [hne]), if_pos hlim]
          rw [hE] at h ⊢
          simp only [Option.some.injEq] at h
          subst h
          refine ⟨rfl, rfl, rfl, rfl, rfl, ?_, oscillationReason_ne_targets config⟩
          rw [if_pos ⟨fun hc => Option.noConfusion hc,
            fun hc => hne (by injection hc), hlim⟩]
        · have hE : calculate_adjustment config st m i =
              applyStep config { st with oscillation_count := st.oscillation_count + 1 }
                (determine_direction config.targets m) m i := by
            simp only [calculate_adjustment, if_neg hS, hL]
            rw [if_pos (by simp [hne]), if_neg hlim]
          rw [hE] at h ⊢
          have heq : applyStep config { st with oscillation_count := st.oscillation_count + 1 }
              (determine_direction config.targets m) m i =
              ((applyStep config { st with oscillation_count := st.oscillation_count + 1 }
                (determine_direction config.targets m) m i).1, some adj) := by
            rw [← h]
          have hrec := applyStep_stable_record config _ _ m i _ adj hS heq hd
          rw [if_neg (fun hc => hlim hc.2.2)]
          exact ⟨hrec.1, hrec.2.1, hrec.2.2.1, hrec.2.2.2.1, hrec.2.2.2.2.1,
            hrec.2.2.2.2.2, by rw [hrec.2.2.2.2.2]; decide⟩

/-- Witness for C6: a state at the default oscillation limit receives a
flipped direction; the call returns the STABLE oscillation-limit record
with equal thresholds and the matching stop reason. -/
theorem C6_stable_stop_records_witness :
    (calculate_adjustment {} stW6 metricsLowRecall 5).2 = some adjW6 ∧
    adjW6.direction = TuningDirection.stable ∧
    ((calculate_adjustment {} stW6 metricsLowRecall 5).1).converged = true ∧
    adjW6.old_threshold = adjW6.new_threshold ∧
    ((calculate_adjustment {} stW6 metricsLowRecall 5).1).current_threshold =
      stW6.current_threshold := by
  have hdir : determine_direction ({} : TuningTarget) metricsLowRecall =
      TuningDirection.decrease := by
    norm_num [metricsLowRecall, determine_direction, calculate_gaps]
  have h : (calculate_adjustment {} stW6 metricsLowRecall 5).2 = some adjW6 := by
    simp only [calculate_adjustment, stW6, hdir, adjW6]
    simp
  have hmain := C6_stable_stop_records {} stW6 metricsLowRecall 5 adjW6 h rfl
  exact ⟨h, rfl, hmain.1, hmain.2.1, hmain.2.2.2.1⟩

/-! ### C3: the threshold stays within bounds -/

theorem applyStep_bounds (config : FeedbackLoopConfig) (st : TuningState)
    (d : TuningDirection) (m : GuardrailMetrics) (i : ℕ)
    (hminQ : ∃ a : ℤ, config.min_threshold = (a : ℚ) / 1000)
    (hmaxQ : ∃ b : ℤ, config.max_threshold = (b : ℚ) / 1000)
    (hle : config.min_threshold ≤ config.max_threshold)
    (hstep : 0 < effectiveStep config st.oscillation_count)
    (hlo : config.min_threshold ≤ st.current_threshold)
    (hhi : st.current_threshold ≤ config.max_threshold) :
    config.min_threshold ≤ ((applyStep config st d m i).1).current_threshold ∧
    ((applyStep config st d m i).1).current_threshold ≤ config.max_threshold := by
  obtain ⟨a, ha⟩ := hminQ
  obtain ⟨b, hb⟩ := hmaxQ
  simp only [applyStep]
  split <;> split
  · exact ⟨hlo, hhi⟩
  · constructor
    · have h1 : config.min_threshold ≤
          min config.max_threshold
            (st.current_threshold + effectiveStep config st.oscillation_count) :=
        le_min hle (by linarith)
      calc config.min_threshold = round3 config.min_threshold := by
            rw [ha, round3_thousandth]
        _ ≤ _ := round3_mono h1
    · have h2 : min config.max_threshold
          (st.current_threshold + effectiveStep config st.oscillation_count) ≤
          config.max_threshold := min_le_left _ _
      calc round3 _ ≤ round3 config.max_threshold := round3_mono h2
        _ = config.max_threshold := by rw [hb, round3_thousandth]
  · exact ⟨hlo, hhi⟩
  · constructor
    · have h1 : config.min_threshold ≤
          max config.min_threshold
            (st.current_threshold - effectiveStep config st.oscillation_count) :=
        le_max_left _ _
      calc config.min_threshold = round3 config.min_threshold := by
            rw [ha, round3_thousandth]
        _ ≤ _ := round3_mono h1
    · have h2 : max config.min_threshold
          (st.current_threshold - effectiveStep config st.oscillation_count) ≤
          config.max_threshold := max_le hle (by linarith)
      calc round3 _ ≤ round3 config.max_threshold := round3_mono h2
        _ = config.max_threshold := by rw [hb, round3_thousandth]

/-- C3, as stated, is false: with bounds that are not multiples of 0.001
the 3-decimal rounding can push the threshold past `max_threshold`.
Concrete input: `max_threshold = 0.9506`, threshold 0.95 inside the
bounds, step 0.05, an INCREASE direction — the clamped value 0.9506
rounds to 0.951 > 0.9506, so the stored threshold leaves the bounds even
though every precondition of the claim holds. -/
theorem C3_counterexample :
    (0 : ℚ) ≤ configX3.min_threshold ∧
    configX3.min_threshold < configX3.max_threshold ∧
    configX3.max_threshold ≤ 1 ∧
    0 < configX3.step_size ∧ 0 < configX3.min_step_size ∧
    configX3.min_threshold ≤ stX3.current_threshold ∧
    stX3.current_threshold ≤ configX3.max_threshold ∧
    configX3.max_threshold <
      ((calculate_adjustment configX3 stX3 metricsLowPrecision 1).1).current_threshold := by
  refine ⟨by norm_num [configX3], by norm_num [configX3], by norm_num [configX3],
    by norm_num [configX3], by norm_num [configX3], by norm_num [configX3, stX3],
    by norm_num [configX3, stX3], ?_⟩
  norm_num [configX3, stX3, metricsLowPrecision, calculate_adjustment,
    determine_direction, calculate_gaps, applyStep, effectiveStep, round3, round_eq]
  simp
  norm_num

/-- C3 amended: the invariant
`min_threshold ≤ current_threshold ≤ max_threshold` is preserved by every
`calculate_adjustment` call provided — in addition to the claim's
preconditions (0 ≤ min < max ≤ 1, positive step sizes, threshold inside
the bounds) — both bounds are integer multiples of 0.001, so that the
rounding to 3 decimal places fixes them. -/
theorem C3_threshold_bounds (config : FeedbackLoopConfig) (st : TuningState)
    (m : GuardrailMetrics) (i : ℕ)
    (h0 : 0 ≤ config.min_threshold) (h1 : config.max_threshold ≤ 1)
    (hminQ : ∃ a : ℤ, config.min_threshold = (a : ℚ) / 1000)
    (hmaxQ : ∃ b : ℤ, config.max_threshold = (b : ℚ) / 1000)
    (hlt : config.min_threshold < config.max_threshold)
    (hstep : 0 < config.step_size) (hmstep : 0 < config.min_step_size)
    (hlo : config.min_threshold ≤ st.current_threshold)
    (hhi : st.current_threshold ≤ config.max_threshold) :
    config.min_threshold ≤ ((calculate_adjustment config st m i).1).current_threshold ∧
    ((calculate_adjustment config st m i).1).current_threshold ≤ config.max_threshold := by
  by_cases hS : determine_direction config.targets m = TuningDirection.stable
  · simpa [calculate_adjustment, hS] using ⟨hlo, hhi⟩
  · simp only [calculate_adjustment, if_neg hS]
    split
    · split
      · split
        · exact ⟨hlo, hhi⟩
        · exact applyStep_bounds config _ _ m i hminQ hmaxQ (le_of_lt hlt)
            (effectiveStep_pos config _ hstep hmstep) hlo hhi
      · exact applyStep_bounds config _ _ m i hminQ hmaxQ (le_of_lt hlt)
          (effectiveStep_pos config _ hstep hmstep) hlo hhi
    · exact applyStep_bounds config _ _ m i hminQ hmaxQ (le_of_lt hlt)
        (effectiveStep_pos config _ hstep hmstep) hlo hhi

/-- Witness for the amended C3 at the default configuration (bounds 0.100
and 0.950 are multiples of 0.001) and a threshold of 0.5. -/
theorem C3_threshold_bounds_witness :
    FeedbackLoopConfig.min_threshold {} ≤
      ((calculate_adjustment {} stW3 metricsLowPrecision 1).1).current_threshold ∧
    ((calculate_adjustment {} stW3 metricsLowPrecision 1).1).current_threshold ≤
      FeedbackLoopConfig.max_threshold {} :=
  C3_threshold_bounds {} stW3 metricsLowPrecision 1 (by norm_num) (by norm_num)
    ⟨100, by norm_num⟩ ⟨950, by norm_num⟩ (by norm_num) (by norm_num) (by norm_num)
    (by norm_num [stW3]) (by norm_num [stW3])

end GuardrailTuner
